import Mathlib

/-!
Shallow embedding of the weather-Service repository (Flask weather service:
Open-Meteo fetch, sqlite storage, Excel/PDF reports) and proofs of the
specification claims about it.

Python floats are modelled as `ℚ`, with `none : Option ℚ` standing for NaN
where the code checks `np.isnan`.  Epoch timestamps are `ℕ` (seconds), and
`datetime.fromtimestamp(t).isoformat()` is rendered with the process timezone
taken as UTC.  sqlite TEXT comparison is byte-wise comparison of the stored
strings.
-/

/- ---------------------------------------------------------------- -/
/- Basic utilities: rationals, rounding, strings, sorting           -/
/- ---------------------------------------------------------------- -/

/-- Floor of a rational, computed from its normalized numerator and
denominator (kernel-computable form of `⌊q⌋`). -/
def ratFloor (q : ℚ) : ℤ := q.num / (q.den : ℤ)

/-- Python `round` on a float is round-half-to-even; `roundHalfEven q` is
that rounding of a rational to the nearest integer. -/
def roundHalfEven (q : ℚ) : ℤ :=
  if q - (ratFloor q : ℚ) < 1 / 2 then ratFloor q
  else if 1 / 2 < q - (ratFloor q : ℚ) then ratFloor q + 1
  else if ratFloor q % 2 = 0 then ratFloor q else ratFloor q + 1

/-- Python `round(q, d)`: round to `d` decimal places, ties to even. -/
def roundTo (d : ℕ) (q : ℚ) : ℚ := ((roundHalfEven (q * 10 ^ d) : ℤ) : ℚ) / 10 ^ d

/-- Byte-wise comparison of character lists, as sqlite compares TEXT
values (memcmp order; ASCII here). -/
def strLeChars : List Char → List Char → Bool
  | [], _ => true
  | _ :: _, [] => false
  | a :: as, b :: bs => if a < b then true else if b < a then false else strLeChars as bs

/-- Byte-wise string comparison used for sqlite TEXT ordering and
`datetime(...)` comparison of normalized timestamp strings. -/
def strLe (a b : String) : Bool := strLeChars a.toList b.toList

/-- Insert into a sorted list (helper of `sortBy`). -/
def insertBy {α : Type} (le : α → α → Bool) (a : α) : List α → List α
  | [] => [a]
  | b :: bs => if le a b then a :: b :: bs else b :: insertBy le a bs

/-- Sorting as performed by `ORDER BY` / `pandas.sort_values`: the sort
algorithm itself is irrelevant to the spec, only the ordering is. -/
def sortBy {α : Type} (le : α → α → Bool) : List α → List α
  | [] => []
  | a :: as => insertBy le a (sortBy le as)

/- ---------------------------------------------------------------- -/
/- Calendar rendering: datetime.fromtimestamp(t).isoformat()        -/
/- ---------------------------------------------------------------- -/

/-- The character of a decimal digit (`'0'` + `n % 10`). -/
def digitChar (n : ℕ) : Char := Char.ofNat (48 + n % 10)

/-- Two-digit zero-padded decimal rendering. -/
def pad2 (n : ℕ) : List Char := [digitChar (n / 10), digitChar n]

/-- Four-digit zero-padded decimal rendering (years). -/
def pad4 (n : ℕ) : List Char :=
  [digitChar (n / 1000), digitChar (n / 100), digitChar (n / 10), digitChar n]

/-- Gregorian (year, month, day) from days since the Unix epoch
(the standard civil-from-days algorithm). -/
def civilFromDays (z : ℕ) : ℕ × ℕ × ℕ :=
  let d := z + 719468
  let era := d / 146097
  let doe := d % 146097
  let yoe := (doe - doe / 1460 + doe / 36524 - doe / 146096) / 365
  let y := yoe + era * 400
  let doy := doe - (365 * yoe + yoe / 4 - yoe / 100)
  let mp := (5 * doy + 2) / 153
  let day := doy - (153 * mp + 2) / 5 + 1
  let month := if mp < 10 then mp + 3 else mp - 9
  (if month ≤ 2 then y + 1 else y, month, day)

/-- `datetime.fromtimestamp(t).isoformat()` for an epoch-second timestamp,
with the process timezone taken as UTC: "YYYY-MM-DDTHH:MM:SS". -/
def isoFromTimestamp (t : ℕ) : String :=
  let date := civilFromDays (t / 86400)
  let secs := t % 86400
  String.mk (pad4 date.1 ++ '-' :: pad2 date.2.1 ++ '-' :: pad2 date.2.2 ++
    'T' :: pad2 (secs / 3600) ++ ':' :: pad2 (secs % 3600 / 60) ++ ':' :: pad2 (secs % 60))

/-- Decimal digit test on characters. -/
def isDigitChar (c : Char) : Bool := 48 ≤ c.toNat && c.toNat ≤ 57

/-- Shape check for the ISO-8601 rendering produced by
`datetime.isoformat()` without microseconds: "YYYY-MM-DDTHH:MM:SS". -/
def isIso8601 (s : String) : Bool :=
  match s.toList with
  | [y1, y2, y3, y4, a1, m1, m2, a2, d1, d2, a3, h1, h2, a4, n1, n2, a5, c1, c2] =>
    isDigitChar y1 && isDigitChar y2 && isDigitChar y3 && isDigitChar y4 &&
    (a1 == '-') && isDigitChar m1 && isDigitChar m2 &&
    (a2 == '-') && isDigitChar d1 && isDigitChar d2 &&
    (a3 == 'T') && isDigitChar h1 && isDigitChar h2 &&
    (a4 == ':') && isDigitChar n1 && isDigitChar n2 &&
    (a5 == ':') && isDigitChar c1 && isDigitChar c2
  | _ => false

/-- Python `range(start, stop, step)` for a positive step, as the list of
its elements. -/
def pyRange (start stop step : ℕ) : List ℕ :=
  (List.range ((stop - start + step - 1) / step)).map (fun i => start + step * i)

/- ---------------------------------------------------------------- -/
/- Weather service: _process_response and fetch_weather_data        -/
/- ---------------------------------------------------------------- -/

/-- An hourly API response, as consumed by
`WeatherService._process_response`: the time range `Time()`, `TimeEnd()`,
`Interval()` and the value arrays of the first two hourly variables
(`temperature_2m`, `relative_humidity_2m`), with `none` for a NaN entry.
The response-level metadata echoes (`Latitude()`, `Elevation()`,
`UtcOffsetSeconds()`) are not modelled; no claim mentions them. -/
structure HourlyResponse where
  time : ℕ
  timeEnd : ℕ
  interval : ℕ
  temp : List (Option ℚ)
  humidity : List (Option ℚ)

/-- One record dict built by the loop body of `_process_response`. -/
structure WeatherRecord where
  timestamp : String
  temperature_2m : Option ℚ
  relative_humidity_2m : Option ℚ
  latitude : ℚ
  longitude : ℚ

deriving instance DecidableEq for WeatherRecord

/-- The record built for time point `t` with raw values `temp`, `hum`:
NaN becomes `None`, other values are rounded (2 decimals for temperature,
1 for humidity), and the timestamp is `fromtimestamp(t).isoformat()`. -/
def mkRecord (lat lon : ℚ) (t : ℕ) (temp hum : Option ℚ) : WeatherRecord :=
  { timestamp := isoFromTimestamp t
    temperature_2m := temp.map (roundTo 2)
    relative_humidity_2m := hum.map (roundTo 1)
    latitude := lat
    longitude := lon }

/-- One iteration of the `for i, timestamp in enumerate(hourly_time)` loop:
a record is produced exactly when `i < len(temp_data) and
i < len(humidity_data)`. -/
def loopStep (lat lon : ℚ) (T H : List (Option ℚ)) (p : ℕ × ℕ) : Option WeatherRecord :=
  if h : p.1 < T.length ∧ p.1 < H.length then
    some (mkRecord lat lon p.2 (T.get ⟨p.1, h.1⟩) (H.get ⟨p.1, h.2⟩))
  else none

/-- The `records` list accumulated by `_process_response`. -/
def processRecords (lat lon : ℚ) (resp : HourlyResponse) : List WeatherRecord :=
  (List.enum (pyRange resp.time resp.timeEnd resp.interval)).filterMap
    (loopStep lat lon resp.temp resp.humidity)

/-- The `valid_records` predicate of `_process_response`: both values
non-None. -/
def isValidRecord (r : WeatherRecord) : Bool :=
  r.temperature_2m.isSome && r.relative_humidity_2m.isSome

/-- The dict returned by `_process_response` (the fields claims talk
about; the echoed response metadata is omitted). -/
structure ProcessedResponse where
  total_records : ℕ
  valid_records : ℕ
  date_range_start : Option String
  date_range_end : Option String
  data : List WeatherRecord
  sample_data : List WeatherRecord

deriving instance DecidableEq for ProcessedResponse

/-- `WeatherService._process_response`: raises when a value array is
empty, otherwise builds the records and filters the valid ones. -/
def processResponse (lat lon : ℚ) (resp : HourlyResponse) : Except String ProcessedResponse :=
  if resp.temp.length = 0 ∨ resp.humidity.length = 0 then
    Except.error "No temperature or humidity data received"
  else
    let records := processRecords lat lon resp
    let valid := records.filter isValidRecord
    Except.ok
      { total_records := records.length
        valid_records := valid.length
        date_range_start := (records.head?).map WeatherRecord.timestamp
        date_range_end := (records.getLast?).map WeatherRecord.timestamp
        data := valid
        sample_data := valid.take 5 }

/-- Python exception classes distinguished by the endpoints: `ValueError`
versus every other exception. -/
inductive PyError where
  | valueError (msg : String)
  | other (msg : String)

deriving instance DecidableEq for PyError

/-- `WeatherService.fetch_weather_data`: coordinate validation raises
`ValueError` before the try block; any error inside the try block is
re-raised as a plain `Exception("Weather API error: ...")`.  The HTTP
transport is not modelled: the already-received response is a
parameter. -/
def fetchWeatherData (lat lon : ℚ) (resp : HourlyResponse) : Except PyError ProcessedResponse :=
  if ¬(-90 ≤ lat ∧ lat ≤ 90) then
    Except.error (PyError.valueError "Invalid latitude (must be between -90 and 90)")
  else if ¬(-180 ≤ lon ∧ lon ≤ 180) then
    Except.error (PyError.valueError "Invalid longitude (must be between -180 and 180)")
  else
    match processResponse lat lon resp with
    | Except.ok r => Except.ok r
    | Except.error e => Except.error (PyError.other ("Weather API error: " ++ e))

/- ---------------------------------------------------------------- -/
/- Database: schema, store_weather_data, get_recent_data            -/
/- ---------------------------------------------------------------- -/

/-- A row of the `weather_data` table.  The `id` and `created_at` columns
(autoincrement key, insertion time) are not modelled; no claim mentions
them.  Fields are `Option` so that the NOT NULL constraints of the schema
can be expressed at insertion. -/
structure Row where
  timestamp : Option String
  latitude : Option ℚ
  longitude : Option ℚ
  temperature_2m : Option ℚ
  relative_humidity_2m : Option ℚ

deriving instance DecidableEq for Row

/-- One `INSERT INTO weather_data ...`, honoring the NOT NULL constraints
of the schema created by `WeatherDatabase.init_database` (`timestamp`,
`latitude`, `longitude` are NOT NULL; the value columns are nullable). -/
def sqliteInsert (tbl : List Row) (r : Row) : Except String (List Row) :=
  if r.timestamp = none then Except.error "NOT NULL constraint failed: weather_data.timestamp"
  else if r.latitude = none then Except.error "NOT NULL constraint failed: weather_data.latitude"
  else if r.longitude = none then Except.error "NOT NULL constraint failed: weather_data.longitude"
  else Except.ok (tbl ++ [r])

/-- The insert-and-count loop of `store_weather_data`. -/
def insertAll (tbl : List Row) : List Row → Except String (List Row × ℕ)
  | [] => Except.ok (tbl, 0)
  | r :: rs =>
    match sqliteInsert tbl r with
    | Except.error e => Except.error e
    | Except.ok tbl2 =>
      match insertAll tbl2 rs with
      | Except.error e => Except.error e
      | Except.ok (t, n) => Except.ok (t, n + 1)

/-- `WeatherDatabase.store_weather_data`: inserts every record and
returns the count; on an exception nothing is committed, so an error
leaves the table unchanged. -/
def storeWeatherData (tbl : List Row) (records : List Row) : Except String (List Row × ℕ) :=
  insertAll tbl records

/-- The row written for a record dict coming from `_process_response`. -/
def toRow (r : WeatherRecord) : Row :=
  { timestamp := some r.timestamp
    latitude := some r.latitude
    longitude := some r.longitude
    temperature_2m := r.temperature_2m
    relative_humidity_2m := r.relative_humidity_2m }

/-- The NOT NULL columns of a row are all present. -/
def rowRequiredPresent (r : Row) : Bool :=
  r.timestamp.isSome && r.latitude.isSome && r.longitude.isSome

/-- Sort key of `ORDER BY timestamp`; the table invariant (insertion
rejects NULL timestamps) makes the default unreachable. -/
def tsKey (r : Row) : String := r.timestamp.getD ""

/-- The WHERE clause of `get_recent_data`:
`datetime(timestamp) >= datetime('now', '-hours hours')`, a comparison of
normalized timestamp strings (NULL compares as no row). -/
def rowInWindow (cutoff : String) (r : Row) : Bool :=
  match r.timestamp with
  | some ts => strLe cutoff ts
  | none => false

/-- The cutoff `datetime('now', '-hours hours')` rendered as a timestamp
string, with `now` the current epoch second. -/
def cutoffTime (now hours : ℕ) : String := isoFromTimestamp (now - hours * 3600)

/-- `WeatherDatabase.get_recent_data`: rows of the last `hours` hours,
newest first, at most 1000. -/
def getRecentData (tbl : List Row) (now hours : ℕ) : List Row :=
  (sortBy (fun a b => strLe (tsKey b) (tsKey a))
    (tbl.filter (rowInWindow (cutoffTime now hours)))).take 1000

/- ---------------------------------------------------------------- -/
/- Report services: Excel and PDF                                   -/
/- ---------------------------------------------------------------- -/

/-- Mean of a pandas column (NaN-skipping: the input is the list of
present values; mean of an empty column is NaN, i.e. `none`). -/
def listMean (l : List ℚ) : Option ℚ :=
  if l.length = 0 then none else some (l.sum / (l.length : ℚ))

/-- Max of a pandas column over its present values. -/
def listMax : List ℚ → Option ℚ
  | [] => none
  | v :: vs => some (vs.foldl max v)

/-- Min of a pandas column over its present values. -/
def listMin : List ℚ → Option ℚ
  | [] => none
  | v :: vs => some (vs.foldl min v)

/-- The present values of the `temperature_2m` column (pandas drops the
NaN entries coming from NULL). -/
def colTemps (rows : List Row) : List ℚ := rows.filterMap Row.temperature_2m

/-- The present values of the `relative_humidity_2m` column. -/
def colHums (rows : List Row) : List ℚ := rows.filterMap Row.relative_humidity_2m

/-- The `stats` dict computed by `generate_pdf_report` and interpolated
into the report HTML. -/
structure PdfStats where
  temp_avg : Option ℚ
  temp_max : Option ℚ
  temp_min : Option ℚ
  hum_avg : Option ℚ
  hum_max : Option ℚ
  hum_min : Option ℚ

deriving instance DecidableEq for PdfStats

/-- The content of the generated PDF that the source computes itself
(chart drawing and HTML-to-PDF conversion are third-party calls over
exactly these numbers). -/
structure PdfReport where
  stats : PdfStats
  total_records : ℕ

deriving instance DecidableEq for PdfReport

/-- The statistics block of `PDFService.generate_pdf_report`. -/
def pdfStatsOf (rows : List Row) : PdfStats :=
  { temp_avg := listMean (colTemps rows)
    temp_max := listMax (colTemps rows)
    temp_min := listMin (colTemps rows)
    hum_avg := listMean (colHums rows)
    hum_max := listMax (colHums rows)
    hum_min := listMin (colHums rows) }

/-- Ascending sort by timestamp, `df.sort_values('timestamp')`. -/
def sortByTimestamp (rows : List Row) : List Row :=
  sortBy (fun a b => strLe (tsKey a) (tsKey b)) rows

/-- `PDFService.generate_pdf_report`: fetch the window, raise
`ValueError` when it is empty, sort ascending and compute the stats. -/
def generatePdfReport (tbl : List Row) (now hours : ℕ) : Except PyError PdfReport :=
  let recent := getRecentData tbl now hours
  if recent.isEmpty then
    Except.error (PyError.valueError
      ("No weather data available for the last " ++ toString hours ++ " hours"))
  else
    let sorted := sortByTimestamp recent
    Except.ok { stats := pdfStatsOf sorted, total_records := sorted.length }

/-- The worksheet written by `generate_excel_report`: the three exported
columns, sorted by timestamp ascending (cell styling is formatting
only). -/
structure ExcelSheet where
  rows : List (String × Option ℚ × Option ℚ)

deriving instance DecidableEq for ExcelSheet

/-- The exported columns of the Excel report. -/
def excelOfRows (recent : List Row) : ExcelSheet :=
  { rows := (sortByTimestamp recent).map
      (fun r => (tsKey r, r.temperature_2m, r.relative_humidity_2m)) }

/-- `ExcelService.generate_excel_report`: fetch the window, raise
`ValueError` when it is empty, export the three columns. -/
def generateExcelReport (tbl : List Row) (now hours : ℕ) : Except PyError ExcelSheet :=
  let recent := getRecentData tbl now hours
  if recent.isEmpty then
    Except.error (PyError.valueError
      ("No weather data available for the last " ++ toString hours ++ " hours"))
  else
    Except.ok (excelOfRows recent)

/- ---------------------------------------------------------------- -/
/- Flask endpoints                                                  -/
/- ---------------------------------------------------------------- -/

/-- Outcome of the `/weather-report` handler: HTTP status, table after
the request, the `database_stored` response field (absent on failure),
and whether the handler reached the weather API call. -/
structure WeatherReportResult where
  status : ℕ
  db : List Row
  database_stored : Option ℕ
  apiCalled : Bool

deriving instance DecidableEq for WeatherReportResult

/-- The `/weather-report` handler `get_weather_report` of app.py:
missing or out-of-range coordinates answer 400 before anything else;
then the fetched result's `data` is stored and `database_stored`
reported; any exception answers 500 with nothing committed. -/
def getWeatherReport (tbl : List Row) (latq lonq : Option ℚ) (resp : HourlyResponse) :
    WeatherReportResult :=
  match latq, lonq with
  | some lat, some lon =>
    if ¬(-90 ≤ lat ∧ lat ≤ 90) then ⟨400, tbl, none, false⟩
    else if ¬(-180 ≤ lon ∧ lon ≤ 180) then ⟨400, tbl, none, false⟩
    else
      match fetchWeatherData lat lon resp with
      | Except.error _ => ⟨500, tbl, none, true⟩
      | Except.ok result =>
        if result.data.isEmpty then ⟨200, tbl, some 0, true⟩
        else
          match storeWeatherData tbl (result.data.map toRow) with
          | Except.ok (tbl2, n) => ⟨200, tbl2, some n, true⟩
          | Except.error _ => ⟨500, tbl, none, true⟩
  | _, _ => ⟨400, tbl, none, false⟩

/-- The `/export/excel` handler: status code and table after the
request (`hours` outside 1..168 answers 400, an empty window answers
404 via the ValueError branch, other exceptions 500). -/
def exportExcel (tbl : List Row) (now : ℕ) (hours : ℤ) : ℕ × List Row :=
  if hours ≤ 0 ∨ 168 < hours then (400, tbl)
  else
    match generateExcelReport tbl now hours.toNat with
    | Except.ok _ => (200, tbl)
    | Except.error (PyError.valueError _) => (404, tbl)
    | Except.error (PyError.other _) => (500, tbl)

/-- The `/export/pdf` handler, same shape as `/export/excel`. -/
def exportPdf (tbl : List Row) (now : ℕ) (hours : ℤ) : ℕ × List Row :=
  if hours ≤ 0 ∨ 168 < hours then (400, tbl)
  else
    match generatePdfReport tbl now hours.toNat with
    | Except.ok _ => (200, tbl)
    | Except.error (PyError.valueError _) => (404, tbl)
    | Except.error (PyError.other _) => (500, tbl)

/- ---------------------------------------------------------------- -/
/- Concrete fixtures used to instantiate the theorems               -/
/- ---------------------------------------------------------------- -/

/-- A response with three time points, two temperature entries (one NaN)
and three humidity entries. -/
def respW : HourlyResponse :=
  { time := 0, timeEnd := 10800, interval := 3600
    temp := [some 5, none], humidity := [some 50, some 60, some 70] }

/-- A one-point response whose values are NaN. -/
def respN : HourlyResponse :=
  { time := 0, timeEnd := 3600, interval := 3600, temp := [none], humidity := [none] }

/-- A one-point response with plain values. -/
def respOne : HourlyResponse :=
  { time := 0, timeEnd := 3600, interval := 3600, temp := [some 5], humidity := [some 50] }

/-- The record `respOne` normalizes to. -/
def recOne : WeatherRecord := mkRecord 47 8 0 (some 5) (some 50)

/-- The dict `fetch_weather_data 47 8` returns on `respOne`. -/
def prOne : ProcessedResponse :=
  { total_records := 1, valid_records := 1
    date_range_start := some (isoFromTimestamp 0)
    date_range_end := some (isoFromTimestamp 0)
    data := [recOne], sample_data := [recOne] }

/-- A fully-populated row (timestamp 2026-01-01T00:00:00 UTC). -/
def rowW : Row :=
  { timestamp := some (isoFromTimestamp 1767225600)
    latitude := some 47, longitude := some 8
    temperature_2m := some 5, relative_humidity_2m := some 50 }

/-- A row whose latitude is NULL. -/
def nullLatRow : Row :=
  { timestamp := some (isoFromTimestamp 1767225600)
    latitude := none, longitude := some 8
    temperature_2m := some 5, relative_humidity_2m := some 50 }

/- ---------------------------------------------------------------- -/
/- Lemmas: rounding                                                 -/
/- ---------------------------------------------------------------- -/

theorem ratFloor_eq (q : ℚ) : ratFloor q = ⌊q⌋ := Rat.floor_def.symm

theorem roundHalfEven_sub_le (q : ℚ) : |(roundHalfEven q : ℚ) - q| ≤ 1 / 2 := by
  have h1 : ((⌊q⌋ : ℤ) : ℚ) ≤ q := Int.floor_le q
  have h2 : q < ((⌊q⌋ : ℤ) : ℚ) + 1 := Int.lt_floor_add_one q
  unfold roundHalfEven
  rw [ratFloor_eq]
  split_ifs with ha hb hc <;> rw [abs_le] <;> constructor <;> push_cast <;> linarith

theorem roundTo_close (d : ℕ) (q : ℚ) : |roundTo d q - q| ≤ 1 / (2 * 10 ^ d) := by
  have h := roundHalfEven_sub_le (q * 10 ^ d)
  have hp : (0 : ℚ) < 10 ^ d := by positivity
  rw [roundTo]
  have hrw : ((roundHalfEven (q * 10 ^ d) : ℤ) : ℚ) / 10 ^ d - q =
      (((roundHalfEven (q * 10 ^ d) : ℤ) : ℚ) - q * 10 ^ d) / 10 ^ d := by
    field_simp
    ring
  rw [hrw, abs_div, abs_of_pos hp, div_le_div_iff₀ hp (by positivity)]
  nlinarith [abs_nonneg (((roundHalfEven (q * 10 ^ d) : ℤ) : ℚ) - q * 10 ^ d)]

/- ---------------------------------------------------------------- -/
/- Lemmas: ISO rendering                                            -/
/- ---------------------------------------------------------------- -/

theorem isDigitChar_digitChar (n : ℕ) : isDigitChar (digitChar n) = true := by
  have h : n % 10 < 10 := Nat.mod_lt _ (by norm_num)
  unfold digitChar
  revert h
  generalize n % 10 = k
  intro h
  interval_cases k <;> decide

theorem isIso8601_isoFromTimestamp (t : ℕ) : isIso8601 (isoFromTimestamp t) = true := by
  simp [isoFromTimestamp, isIso8601, pad4, pad2, String.toList, String.mk,
    isDigitChar_digitChar]

/- ---------------------------------------------------------------- -/
/- Lemmas: the normalization loop as a zip                          -/
/- ---------------------------------------------------------------- -/

theorem loopStep_none (lat lon : ℚ) (T H : List (Option ℚ)) (n t : ℕ)
    (h : T.length ≤ n ∨ H.length ≤ n) : loopStep lat lon T H (n, t) = none := by
  unfold loopStep
  rw [dif_neg]
  omega

theorem filterMap_loopStep_nil (lat lon : ℚ) (T H : List (Option ℚ)) :
    ∀ (ts : List ℕ) (n : ℕ), T.length ≤ n ∨ H.length ≤ n →
      (List.enumFrom n ts).filterMap (loopStep lat lon T H) = [] := by
  intro ts
  induction ts with
  | nil => intro n _; rfl
  | cons t ts ih =>
    intro n hn
    rw [List.enumFrom_cons, List.filterMap_cons, loopStep_none lat lon T H n t hn]
    exact ih (n + 1) (by omega)

theorem filterMap_loopStep_eq_zip (lat lon : ℚ) (T H : List (Option ℚ)) :
    ∀ (ts : List ℕ) (n : ℕ),
      (List.enumFrom n ts).filterMap (loopStep lat lon T H) =
        (ts.zip ((T.drop n).zip (H.drop n))).map
          (fun p => mkRecord lat lon p.1 p.2.1 p.2.2) := by
  intro ts
  induction ts with
  | nil => intro n; rfl
  | cons t ts ih =>
    intro n
    rw [List.enumFrom_cons, List.filterMap_cons]
    by_cases h : n < T.length ∧ n < H.length
    · have hT : T.drop n = T[n] :: T.drop (n + 1) := List.drop_eq_getElem_cons h.1
      have hH : H.drop n = H[n] :: H.drop (n + 1) := List.drop_eq_getElem_cons h.2
      rw [hT, hH]
      have hstep : loopStep lat lon T H (n, t) = some (mkRecord lat lon t T[n] H[n]) := by
        unfold loopStep
        rw [dif_pos h]
        rfl
      rw [hstep, List.zip_cons_cons, List.zip_cons_cons, List.map_cons, ih (n + 1)]
    · rw [loopStep_none lat lon T H n t (by omega)]
      rw [filterMap_loopStep_nil lat lon T H ts (n + 1) (by omega)]
      rcases (by omega : T.length ≤ n ∨ H.length ≤ n) with hc | hc
      · rw [List.drop_eq_nil_of_le hc, List.zip_nil_left, List.zip_nil_right]
        rfl
      · rw [List.drop_eq_nil_of_le hc, List.zip_nil_right, List.zip_nil_right]
        rfl

theorem processRecords_eq_zip (lat lon : ℚ) (resp : HourlyResponse) :
    processRecords lat lon resp =
      ((pyRange resp.time resp.timeEnd resp.interval).zip
        (resp.temp.zip resp.humidity)).map
          (fun p => mkRecord lat lon p.1 p.2.1 p.2.2) := by
  unfold processRecords
  have h := filterMap_loopStep_eq_zip lat lon resp.temp resp.humidity
    (pyRange resp.time resp.timeEnd resp.interval) 0
  simpa using h

theorem length_processRecords (lat lon : ℚ) (resp : HourlyResponse) :
    (processRecords lat lon resp).length =
      min (pyRange resp.time resp.timeEnd resp.interval).length
        (min resp.temp.length resp.humidity.length) := by
  rw [processRecords_eq_zip, List.length_map, List.length_zip, List.length_zip]

/- ---------------------------------------------------------------- -/
/- Lemmas: sorting is a permutation                                 -/
/- ---------------------------------------------------------------- -/

theorem insertBy_perm {α : Type} (le : α → α → Bool) (a : α) (l : List α) :
    (insertBy le a l).Perm (a :: l) := by
  induction l with
  | nil => exact List.Perm.refl _
  | cons b bs ih =>
    rw [insertBy]
    by_cases h : le a b = true
    · rw [if_pos h]
    · rw [if_neg h]
      exact (ih.cons b).trans (List.Perm.swap a b bs)

theorem sortBy_perm {α : Type} (le : α → α → Bool) (l : List α) :
    (sortBy le l).Perm l := by
  induction l with
  | nil => exact List.Perm.refl _
  | cons a as ih => exact (insertBy_perm le a (sortBy le as)).trans (ih.cons a)

/- ---------------------------------------------------------------- -/
/- Lemmas: columns, folds, statistics                               -/
/- ---------------------------------------------------------------- -/

theorem length_filterMap_of_isSome {α β : Type} (f : α → Option β) (l : List α)
    (h : ∀ a ∈ l, (f a).isSome = true) : (l.filterMap f).length = l.length := by
  induction l with
  | nil => rfl
  | cons a as ih =>
    obtain ⟨b, hb⟩ := Option.isSome_iff_exists.1 (h a (List.mem_cons_self a as))
    rw [List.filterMap_cons, hb]
    simp [ih (fun x hx => h x (List.mem_cons_of_mem a hx))]

theorem le_foldl_max (l : List ℚ) : ∀ v : ℚ, v ≤ l.foldl max v := by
  induction l with
  | nil => intro v; exact le_refl v
  | cons x l ih =>
    intro v
    rw [List.foldl_cons]
    exact le_trans (le_max_left v x) (ih (max v x))

theorem mem_le_foldl_max (l : List ℚ) : ∀ (v x : ℚ), x ∈ l → x ≤ l.foldl max v := by
  induction l with
  | nil => intro v x hx; exact absurd hx (List.not_mem_nil x)
  | cons y l ih =>
    intro v x hx
    rw [List.foldl_cons]
    rcases List.mem_cons.1 hx with h | h
    · subst h
      exact le_trans (le_max_right _ _) (le_foldl_max _ _)
    · exact ih (max v y) x h

theorem foldl_max_mem (l : List ℚ) : ∀ v : ℚ, l.foldl max v ∈ v :: l := by
  induction l with
  | nil => intro v; exact List.mem_cons_self v []
  | cons x l ih =>
    intro v
    rw [List.foldl_cons]
    rcases List.mem_cons.1 (ih (max v x)) with h | h
    · rw [h]
      rcases max_choice v x with hc | hc <;> rw [hc]
      · exact List.mem_cons_self v (x :: l)
      · exact List.mem_cons_of_mem v (List.mem_cons_self x l)
    · exact List.mem_cons_of_mem v (List.mem_cons_of_mem x h)

theorem foldl_min_le (l : List ℚ) : ∀ v : ℚ, l.foldl min v ≤ v := by
  induction l with
  | nil => intro v; exact le_refl v
  | cons x l ih =>
    intro v
    rw [List.foldl_cons]
    exact le_trans (ih (min v x)) (min_le_left v x)

theorem foldl_min_le_mem (l : List ℚ) : ∀ (v x : ℚ), x ∈ l → l.foldl min v ≤ x := by
  induction l with
  | nil => intro v x hx; exact absurd hx (List.not_mem_nil x)
  | cons y l ih =>
    intro v x hx
    rw [List.foldl_cons]
    rcases List.mem_cons.1 hx with h | h
    · subst h
      exact le_trans (foldl_min_le _ _) (min_le_right _ _)
    · exact ih (min v y) x h

theorem foldl_min_mem (l : List ℚ) : ∀ v : ℚ, l.foldl min v ∈ v :: l := by
  induction l with
  | nil => intro v; exact List.mem_cons_self v []
  | cons x l ih =>
    intro v
    rw [List.foldl_cons]
    rcases List.mem_cons.1 (ih (min v x)) with h | h
    · rw [h]
      rcases min_choice v x with hc | hc <;> rw [hc]
      · exact List.mem_cons_self v (x :: l)
      · exact List.mem_cons_of_mem v (List.mem_cons_self x l)
    · exact List.mem_cons_of_mem v (List.mem_cons_of_mem x h)

theorem listMax_spec (l : List ℚ) (hl : l ≠ []) :
    ∃ m, listMax l = some m ∧ m ∈ l ∧ ∀ x ∈ l, x ≤ m := by
  match l, hl with
  | v :: vs, _ =>
    refine ⟨vs.foldl max v, rfl, foldl_max_mem vs v, ?_⟩
    intro x hx
    rcases List.mem_cons.1 hx with h | h
    · exact h ▸ le_foldl_max vs v
    · exact mem_le_foldl_max vs v x h

theorem listMin_spec (l : List ℚ) (hl : l ≠ []) :
    ∃ m, listMin l = some m ∧ m ∈ l ∧ ∀ x ∈ l, m ≤ x := by
  match l, hl with
  | v :: vs, _ =>
    refine ⟨vs.foldl min v, rfl, foldl_min_mem vs v, ?_⟩
    intro x hx
    rcases List.mem_cons.1 hx with h | h
    · exact h ▸ foldl_min_le vs v
    · exact foldl_min_le_mem vs v x h

/- ---------------------------------------------------------------- -/
/- Lemmas: the store                                                -/
/- ---------------------------------------------------------------- -/

theorem toRow_required (r : WeatherRecord) : rowRequiredPresent (toRow r) = true := rfl

theorem sqliteInsert_ok (tbl : List Row) (r : Row) (h : rowRequiredPresent r = true) :
    sqliteInsert tbl r = Except.ok (tbl ++ [r]) := by
  unfold rowRequiredPresent at h
  rw [Bool.and_eq_true, Bool.and_eq_true] at h
  unfold sqliteInsert
  rw [if_neg, if_neg, if_neg]
  · exact Option.isSome_iff_ne_none.1 h.2
  · exact Option.isSome_iff_ne_none.1 h.1.2
  · exact Option.isSome_iff_ne_none.1 h.1.1

theorem storeWeatherData_append (tbl rs : List Row)
    (h : ∀ r ∈ rs, rowRequiredPresent r = true) :
    storeWeatherData tbl rs = Except.ok (tbl ++ rs, rs.length) := by
  induction rs generalizing tbl with
  | nil => simp [storeWeatherData, insertAll]
  | cons r rs ih =>
    have hr := h r (List.mem_cons_self r rs)
    have hrest := ih (tbl ++ [r]) (fun x hx => h x (List.mem_cons_of_mem r hx))
    unfold storeWeatherData at hrest ⊢
    rw [insertAll, sqliteInsert_ok tbl r hr]
    simp only [hrest]
    simp [List.append_assoc]

/- ---------------------------------------------------------------- -/
/- Claims                                                           -/
/- ---------------------------------------------------------------- -/

/-- C1: the normalization in `_process_response` aligns the time range
with the two parallel value arrays: it produces one record per index
within the bounds of both arrays, so the record count is the minimum of
the number of time points and the two array lengths, and record `i`
carries the `i`-th time point as its timestamp. -/
theorem c1_alignment (lat lon : ℚ) (resp : HourlyResponse) (hstep : 0 < resp.interval) :
    (processRecords lat lon resp).length =
      min (pyRange resp.time resp.timeEnd resp.interval).length
        (min resp.temp.length resp.humidity.length) ∧
    ∀ (i : ℕ) (h : i < (processRecords lat lon resp).length)
      (ht : i < (pyRange resp.time resp.timeEnd resp.interval).length),
      ((processRecords lat lon resp).get ⟨i, h⟩).timestamp =
        isoFromTimestamp ((pyRange resp.time resp.timeEnd resp.interval).get ⟨i, ht⟩) := by
  refine ⟨length_processRecords lat lon resp, ?_⟩
  intro i h ht
  simp only [processRecords_eq_zip, List.get_eq_getElem, List.getElem_map, List.getElem_zip]
  rfl

/-- C1 witness: concrete instantiation on a response with 3 time points,
2 temperature entries and 3 humidity entries. -/
theorem c1_alignment_witness :
    0 < respW.interval ∧
    (processRecords 47 8 respW).length =
      min (pyRange respW.time respW.timeEnd respW.interval).length
        (min respW.temp.length respW.humidity.length) := by
  exact ⟨by decide, (c1_alignment 47 8 respW (by decide)).1⟩

/-- C2: NaN values become None in the record at the same index and
non-NaN values stay present; the returned data list is exactly the
filter of the records to those with both values present, and
total_records / valid_records are the lengths of the full and of the
filtered list. -/
theorem c2_nan_and_filter (lat lon : ℚ) (resp : HourlyResponse)
    (h1 : resp.temp.length ≠ 0) (h2 : resp.humidity.length ≠ 0) :
    ∃ pr, processResponse lat lon resp = Except.ok pr ∧
      pr.data = (processRecords lat lon resp).filter isValidRecord ∧
      pr.total_records = (processRecords lat lon resp).length ∧
      pr.valid_records = pr.data.length ∧
      ∀ (i : ℕ) (h : i < (processRecords lat lon resp).length)
        (ht : i < resp.temp.length) (hh : i < resp.humidity.length),
        (((processRecords lat lon resp).get ⟨i, h⟩).temperature_2m = none ↔
          resp.temp.get ⟨i, ht⟩ = none) ∧
        (((processRecords lat lon resp).get ⟨i, h⟩).relative_humidity_2m = none ↔
          resp.humidity.get ⟨i, hh⟩ = none) := by
  have hok : processResponse lat lon resp = Except.ok
      { total_records := (processRecords lat lon resp).length
        valid_records := ((processRecords lat lon resp).filter isValidRecord).length
        date_range_start := ((processRecords lat lon resp).head?).map WeatherRecord.timestamp
        date_range_end := ((processRecords lat lon resp).getLast?).map WeatherRecord.timestamp
        data := (processRecords lat lon resp).filter isValidRecord
        sample_data := ((processRecords lat lon resp).filter isValidRecord).take 5 } := by
    simp only [processResponse]
    rw [if_neg (by push_neg; exact ⟨h1, h2⟩)]
  refine ⟨_, hok, rfl, rfl, rfl, ?_⟩
  intro i h ht hh
  refine ⟨?_, ?_⟩ <;>
    simp [processRecords_eq_zip, List.get_eq_getElem, List.getElem_map, List.getElem_zip,
      mkRecord, Option.map_eq_none']

/-- C2 witness: concrete instantiation; the NaN temperature at index 1
is dropped from the data list. -/
theorem c2_nan_and_filter_witness :
    respW.temp.length ≠ 0 ∧ respW.humidity.length ≠ 0 ∧
    ∃ pr, processResponse 47 8 respW = Except.ok pr ∧
      pr.data = (processRecords 47 8 respW).filter isValidRecord := by
  obtain ⟨pr, ha, hb, -⟩ := c2_nan_and_filter 47 8 respW (by decide) (by decide)
  exact ⟨by decide, by decide, pr, ha, hb⟩

/-- C5: every produced record stores the source temperature rounded to 2
decimal places and the source humidity rounded to 1 decimal place (when
present); rounding to d places yields a multiple of 10^(-d) within half
a unit in the last place of the source. -/
theorem c5_rounding (lat lon : ℚ) (resp : HourlyResponse) (hstep : 0 < resp.interval) :
    (∀ (i : ℕ) (h : i < (processRecords lat lon resp).length)
        (h1 : i < resp.temp.length) (h2 : i < resp.humidity.length),
      ((processRecords lat lon resp).get ⟨i, h⟩).temperature_2m =
        (resp.temp.get ⟨i, h1⟩).map (roundTo 2) ∧
      ((processRecords lat lon resp).get ⟨i, h⟩).relative_humidity_2m =
        (resp.humidity.get ⟨i, h2⟩).map (roundTo 1)) ∧
    (∀ q : ℚ, (∃ k : ℤ, roundTo 2 q = (k : ℚ) / 10 ^ 2) ∧
      |roundTo 2 q - q| ≤ 1 / (2 * 10 ^ 2)) ∧
    (∀ q : ℚ, (∃ k : ℤ, roundTo 1 q = (k : ℚ) / 10 ^ 1) ∧
      |roundTo 1 q - q| ≤ 1 / (2 * 10 ^ 1)) := by
  refine ⟨?_, fun q => ⟨⟨roundHalfEven (q * 10 ^ 2), rfl⟩, roundTo_close 2 q⟩,
    fun q => ⟨⟨roundHalfEven (q * 10 ^ 1), rfl⟩, roundTo_close 1 q⟩⟩
  intro i h h1 h2
  refine ⟨?_, ?_⟩ <;>
    · simp only [processRecords_eq_zip, List.get_eq_getElem, List.getElem_map, List.getElem_zip]
      rfl

/-- C5 witness: concrete instantiation, with the rounding bound at 5. -/
theorem c5_rounding_witness :
    0 < respW.interval ∧
    (∃ k : ℤ, roundTo 2 5 = (k : ℚ) / 10 ^ 2) ∧
    |roundTo 2 (5 : ℚ) - 5| ≤ 1 / (2 * 10 ^ 2) := by
  obtain ⟨-, h2, -⟩ := c5_rounding 47 8 respW (by decide)
  obtain ⟨hk, hc⟩ := h2 5
  exact ⟨by decide, hk, hc⟩

/-- C3 counterexample: the claim says latitude is nullable in the stored
record type, but the schema declares `latitude REAL NOT NULL`, so
inserting a record with NULL latitude fails. -/
theorem c3_counterexample :
    sqliteInsert [] nullLatRow =
      Except.error "NOT NULL constraint failed: weather_data.latitude" := by
  rfl

/-- C3 (amended): temperature and relative humidity are nullable, but
timestamp, latitude and longitude are NOT NULL — an insert succeeds
exactly when those three are present — and every record produced by the
normalization carries an ISO-8601 timestamp string. -/
theorem c3_schema (tbl : List Row) (r : Row) :
    ((∃ tbl2, sqliteInsert tbl r = Except.ok tbl2) ↔
      (r.timestamp ≠ none ∧ r.latitude ≠ none ∧ r.longitude ≠ none)) ∧
    (∀ (lat lon : ℚ) (resp : HourlyResponse) (w : WeatherRecord),
      w ∈ processRecords lat lon resp → isIso8601 w.timestamp = true) := by
  constructor
  · unfold sqliteInsert
    split_ifs with ha hb hc <;> simp_all
  · intro lat lon resp w hw
    rw [processRecords_eq_zip] at hw
    obtain ⟨p, hp, rfl⟩ := List.mem_map.1 hw
    exact isIso8601_isoFromTimestamp p.1

/-- C3 witness: a fully-populated row is accepted, and the record
normalized from epoch 0 carries an ISO-8601 timestamp. -/
theorem c3_schema_witness :
    (∃ tbl2, sqliteInsert [] rowW = Except.ok tbl2) ∧
    isIso8601 (mkRecord 47 8 0 none none).timestamp = true := by
  refine ⟨(c3_schema [] rowW).1.mpr (by decide), ?_⟩
  exact (c3_schema [] rowW).2 47 8 respN (mkRecord 47 8 0 none none) (by decide)

/-- C4: the weather table is append-only: storing a list of k records
with the required columns present (as every record of the service has)
appends exactly those k rows, returns k, never shrinks the table, and
storing the same list again duplicates the rows. -/
theorem c4_append_only (tbl records : List Row)
    (h : ∀ r ∈ records, rowRequiredPresent r = true) :
    storeWeatherData tbl records = Except.ok (tbl ++ records, records.length) ∧
    tbl.length ≤ (tbl ++ records).length ∧
    storeWeatherData (tbl ++ records) records =
      Except.ok (tbl ++ records ++ records, records.length) := by
  exact ⟨storeWeatherData_append tbl records h, by simp,
    storeWeatherData_append (tbl ++ records) records h⟩

/-- C4 witness: storing one fully-populated row in the empty table. -/
theorem c4_append_only_witness :
    (∀ r ∈ [rowW], rowRequiredPresent r = true) ∧
    storeWeatherData [] [rowW] = Except.ok ([] ++ [rowW], [rowW].length) := by
  have h : ∀ r ∈ [rowW], rowRequiredPresent r = true := by decide
  exact ⟨h, (c4_append_only [] [rowW] h).1⟩

/-- C9: out-of-range coordinates make fetch_weather_data raise
ValueError and the endpoint answer 400 with no API call and an unchanged
table; in-range coordinates never produce a ValueError from the
validation. -/
theorem c9_validation (tbl : List Row) (lat lon : ℚ) (resp : HourlyResponse) :
    ((¬(-90 ≤ lat ∧ lat ≤ 90) ∨ ¬(-180 ≤ lon ∧ lon ≤ 180)) →
      (∃ m, fetchWeatherData lat lon resp = Except.error (PyError.valueError m)) ∧
      getWeatherReport tbl (some lat) (some lon) resp = ⟨400, tbl, none, false⟩) ∧
    ((-90 ≤ lat ∧ lat ≤ 90) → (-180 ≤ lon ∧ lon ≤ 180) →
      ∀ m, fetchWeatherData lat lon resp ≠ Except.error (PyError.valueError m)) := by
  constructor
  · intro hbad
    by_cases hlat : -90 ≤ lat ∧ lat ≤ 90
    · have hlon : ¬(-180 ≤ lon ∧ lon ≤ 180) := by tauto
      constructor
      · exact ⟨_, by unfold fetchWeatherData; rw [if_neg (not_not_intro hlat), if_pos hlon]⟩
      · simp only [getWeatherReport]
        rw [if_neg (not_not_intro hlat), if_pos hlon]
    · constructor
      · exact ⟨_, by unfold fetchWeatherData; rw [if_pos hlat]⟩
      · simp only [getWeatherReport]
        rw [if_pos hlat]
  · intro hlat hlon m
    unfold fetchWeatherData
    rw [if_neg (not_not_intro hlat), if_neg (not_not_intro hlon)]
    cases hpr : processResponse lat lon resp <;> simp

/-- C9 witness: latitude 91 is rejected with a 400 and no API call. -/
theorem c9_validation_witness :
    (∃ m, fetchWeatherData 91 8 respOne = Except.error (PyError.valueError m)) ∧
    getWeatherReport [] (some 91) (some 8) respOne = ⟨400, [], none, false⟩ := by
  exact (c9_validation [] 91 8 respOne).1 (Or.inl (by decide))

/-- C8: on a successful fetch with non-empty data, the handler stores
every fetched record as a row and reports their number as
database_stored; with empty data it stores nothing and reports 0. -/
theorem c8_persistence (tbl : List Row) (lat lon : ℚ) (resp : HourlyResponse)
    (pr : ProcessedResponse)
    (hlat : -90 ≤ lat ∧ lat ≤ 90) (hlon : -180 ≤ lon ∧ lon ≤ 180)
    (hfetch : fetchWeatherData lat lon resp = Except.ok pr) :
    (pr.data ≠ [] →
      getWeatherReport tbl (some lat) (some lon) resp =
        ⟨200, tbl ++ pr.data.map toRow, some (pr.data.map toRow).length, true⟩ ∧
      ∀ w ∈ pr.data, toRow w ∈ tbl ++ pr.data.map toRow) ∧
    (pr.data = [] →
      getWeatherReport tbl (some lat) (some lon) resp = ⟨200, tbl, some 0, true⟩) := by
  have hstore := storeWeatherData_append tbl (pr.data.map toRow)
    (by intro r hr; obtain ⟨w, hw, rfl⟩ := List.mem_map.1 hr; exact toRow_required w)
  constructor
  · intro hne
    constructor
    · simp only [getWeatherReport]
      rw [if_neg (not_not_intro hlat), if_neg (not_not_intro hlon), hfetch]
      simp [hne, hstore]
    · intro w hw
      exact List.mem_append_right tbl (List.mem_map_of_mem toRow hw)
  · intro hnil
    simp only [getWeatherReport]
    rw [if_neg (not_not_intro hlat), if_neg (not_not_intro hlon), hfetch]
    simp [hnil]

/-- C8 witness: the single record fetched from `respOne` is stored and
database_stored is 1. -/
theorem c8_persistence_witness :
    ((-90 : ℚ) ≤ 47 ∧ (47 : ℚ) ≤ 90) ∧
    fetchWeatherData 47 8 respOne = Except.ok prOne ∧
    getWeatherReport [] (some 47) (some 8) respOne =
      ⟨200, [] ++ prOne.data.map toRow, some (prOne.data.map toRow).length, true⟩ := by
  have hfetch : fetchWeatherData 47 8 respOne = Except.ok prOne := by rfl
  refine ⟨by decide, hfetch, ?_⟩
  exact ((c8_persistence [] 47 8 respOne prOne ⟨by decide, by decide⟩
    ⟨by decide, by decide⟩ hfetch).1 (by decide)).1

/-- C7: the two report renderers read rows only via get_recent_data
(their output depends on the table only through it) and leave the
weather table unchanged. -/
theorem c7_readonly (tbl tblB : List Row) (now hours : ℕ) (hoursE : ℤ)
    (hsame : getRecentData tbl now hours = getRecentData tblB now hours) :
    generateExcelReport tbl now hours = generateExcelReport tblB now hours ∧
    generatePdfReport tbl now hours = generatePdfReport tblB now hours ∧
    (exportExcel tbl now hoursE).2 = tbl ∧
    (exportPdf tbl now hoursE).2 = tbl := by
  refine ⟨?_, ?_, ?_, ?_⟩
  · simp only [generateExcelReport]
    rw [hsame]
  · simp only [generatePdfReport]
    rw [hsame]
  · unfold exportExcel
    split
    · rfl
    · split <;> rfl
  · unfold exportPdf
    split
    · rfl
    · split <;> rfl

/-- C7 witness: rendering over a one-row table leaves it unchanged. -/
theorem c7_readonly_witness :
    (getRecentData [rowW] 0 48 = getRecentData [rowW] 0 48) ∧
    generateExcelReport [rowW] 0 48 = generateExcelReport [rowW] 0 48 ∧
    (exportExcel [rowW] 0 48).2 = [rowW] ∧
    (exportPdf [rowW] 0 48).2 = [rowW] := by
  have h := c7_readonly [rowW] [rowW] 0 48 48 rfl
  exact ⟨rfl, h.1, h.2.2.1, h.2.2.2⟩

/-- C10: when the window holds no rows both renderers raise ValueError
and both export endpoints answer 404 with the table unchanged; when at
least one row is in the window neither renderer raises. -/
theorem c10_empty_window (tbl : List Row) (now hoursR : ℕ) (hoursE : ℤ)
    (hvalid : 1 ≤ hoursE ∧ hoursE ≤ 168) :
    (getRecentData tbl now hoursR = [] →
      (∃ m, generateExcelReport tbl now hoursR = Except.error (PyError.valueError m)) ∧
      (∃ m, generatePdfReport tbl now hoursR = Except.error (PyError.valueError m))) ∧
    (getRecentData tbl now hoursR ≠ [] →
      (∃ out, generateExcelReport tbl now hoursR = Except.ok out) ∧
      (∃ rep, generatePdfReport tbl now hoursR = Except.ok rep)) ∧
    (getRecentData tbl now hoursE.toNat = [] →
      exportExcel tbl now hoursE = (404, tbl) ∧
      exportPdf tbl now hoursE = (404, tbl)) := by
  have hcond : ¬(hoursE ≤ 0 ∨ 168 < hoursE) := by omega
  refine ⟨?_, ?_, ?_⟩
  · intro he
    constructor
    · exact ⟨_, by simp only [generateExcelReport]; rw [if_pos (by rw [he]; rfl)]⟩
    · exact ⟨_, by simp only [generatePdfReport]; rw [if_pos (by rw [he]; rfl)]⟩
  · intro hne
    constructor
    · exact ⟨_, by simp only [generateExcelReport]; rw [if_neg (by simpa using hne)]⟩
    · exact ⟨_, by simp only [generatePdfReport]; rw [if_neg (by simpa using hne)]⟩
  · intro he
    have hex : generateExcelReport tbl now hoursE.toNat = Except.error (PyError.valueError
        ("No weather data available for the last " ++ toString hoursE.toNat ++ " hours")) := by
      simp only [generateExcelReport]
      rw [if_pos (by rw [he]; rfl)]
    have hpd : generatePdfReport tbl now hoursE.toNat = Except.error (PyError.valueError
        ("No weather data available for the last " ++ toString hoursE.toNat ++ " hours")) := by
      simp only [generatePdfReport]
      rw [if_pos (by rw [he]; rfl)]
    constructor
    · unfold exportExcel
      rw [if_neg hcond, hex]
    · unfold exportPdf
      rw [if_neg hcond, hpd]

/-- C10 witness: the empty table gives an empty window; both exports
answer 404 and the renderer raises ValueError. -/
theorem c10_empty_window_witness :
    (1 ≤ (48 : ℤ) ∧ (48 : ℤ) ≤ 168) ∧
    (∃ m, generateExcelReport [] 0 48 = Except.error (PyError.valueError m)) ∧
    exportExcel [] 0 48 = (404, []) ∧ exportPdf [] 0 48 = (404, []) := by
  obtain ⟨h1, h2, h3⟩ := c10_empty_window [] 0 48 48 ⟨by decide, by decide⟩
  have hx := h3 rfl
  exact ⟨⟨by decide, by decide⟩, (h1 rfl).1, hx.1, hx.2⟩

/-- C6: on a non-empty window of rows with both values present (as all
stored service rows have), the PDF statistics are exactly the average,
maximum and minimum of the temperature column and of the humidity
column of the retrieved rows. -/
theorem c6_pdf_statistics (tbl : List Row) (now hours : ℕ)
    (hne : getRecentData tbl now hours ≠ [])
    (hval : ∀ r ∈ getRecentData tbl now hours,
      r.temperature_2m.isSome = true ∧ r.relative_humidity_2m.isSome = true) :
    ∃ rep, generatePdfReport tbl now hours = Except.ok rep ∧
      (colTemps (getRecentData tbl now hours)).length = (getRecentData tbl now hours).length ∧
      (colHums (getRecentData tbl now hours)).length = (getRecentData tbl now hours).length ∧
      rep.stats.temp_avg = some ((colTemps (getRecentData tbl now hours)).sum /
        ((colTemps (getRecentData tbl now hours)).length : ℚ)) ∧
      (∃ m, rep.stats.temp_max = some m ∧ m ∈ colTemps (getRecentData tbl now hours) ∧
        ∀ x ∈ colTemps (getRecentData tbl now hours), x ≤ m) ∧
      (∃ m, rep.stats.temp_min = some m ∧ m ∈ colTemps (getRecentData tbl now hours) ∧
        ∀ x ∈ colTemps (getRecentData tbl now hours), m ≤ x) ∧
      rep.stats.hum_avg = some ((colHums (getRecentData tbl now hours)).sum /
        ((colHums (getRecentData tbl now hours)).length : ℚ)) ∧
      (∃ m, rep.stats.hum_max = some m ∧ m ∈ colHums (getRecentData tbl now hours) ∧
        ∀ x ∈ colHums (getRecentData tbl now hours), x ≤ m) ∧
      (∃ m, rep.stats.hum_min = some m ∧ m ∈ colHums (getRecentData tbl now hours) ∧
        ∀ x ∈ colHums (getRecentData tbl now hours), m ≤ x) := by
  have hperm : (sortByTimestamp (getRecentData tbl now hours)).Perm
      (getRecentData tbl now hours) := sortBy_perm _ _
  have hpermT : (colTemps (sortByTimestamp (getRecentData tbl now hours))).Perm
      (colTemps (getRecentData tbl now hours)) := hperm.filterMap _
  have hpermH : (colHums (sortByTimestamp (getRecentData tbl now hours))).Perm
      (colHums (getRecentData tbl now hours)) := hperm.filterMap _
  have hlenT : (colTemps (getRecentData tbl now hours)).length =
      (getRecentData tbl now hours).length :=
    length_filterMap_of_isSome _ _ (fun a ha => (hval a ha).1)
  have hlenH : (colHums (getRecentData tbl now hours)).length =
      (getRecentData tbl now hours).length :=
    length_filterMap_of_isSome _ _ (fun a ha => (hval a ha).2)
  have hlen0 : (getRecentData tbl now hours).length ≠ 0 := by
    simpa using fun h0 => hne (List.length_eq_zero.1 h0)
  have hTne : colTemps (sortByTimestamp (getRecentData tbl now hours)) ≠ [] := by
    intro h0
    have := hpermT.length_eq
    rw [h0] at this
    exact hlen0 (by rw [← hlenT, ← this]; rfl)
  have hHne : colHums (sortByTimestamp (getRecentData tbl now hours)) ≠ [] := by
    intro h0
    have := hpermH.length_eq
    rw [h0] at this
    exact hlen0 (by rw [← hlenH, ← this]; rfl)
  have hok : generatePdfReport tbl now hours = Except.ok
      { stats := pdfStatsOf (sortByTimestamp (getRecentData tbl now hours))
        total_records := (sortByTimestamp (getRecentData tbl now hours)).length } := by
    simp only [generatePdfReport]
    rw [if_neg (by simpa using hne)]
  refine ⟨_, hok, hlenT, hlenH, ?_, ?_, ?_, ?_, ?_, ?_⟩
  · show listMean (colTemps (sortByTimestamp (getRecentData tbl now hours))) = _
    unfold listMean
    rw [if_neg (by rw [hpermT.length_eq, hlenT]; exact hlen0)]
    rw [hpermT.sum_eq, hpermT.length_eq]
  · obtain ⟨m, hm, hmem, hbd⟩ := listMax_spec _ hTne
    exact ⟨m, hm, hpermT.mem_iff.1 hmem, fun x hx => hbd x (hpermT.mem_iff.2 hx)⟩
  · obtain ⟨m, hm, hmem, hbd⟩ := listMin_spec _ hTne
    exact ⟨m, hm, hpermT.mem_iff.1 hmem, fun x hx => hbd x (hpermT.mem_iff.2 hx)⟩
  · show listMean (colHums (sortByTimestamp (getRecentData tbl now hours))) = _
    unfold listMean
    rw [if_neg (by rw [hpermH.length_eq, hlenH]; exact hlen0)]
    rw [hpermH.sum_eq, hpermH.length_eq]
  · obtain ⟨m, hm, hmem, hbd⟩ := listMax_spec _ hHne
    exact ⟨m, hm, hpermH.mem_iff.1 hmem, fun x hx => hbd x (hpermH.mem_iff.2 hx)⟩
  · obtain ⟨m, hm, hmem, hbd⟩ := listMin_spec _ hHne
    exact ⟨m, hm, hpermH.mem_iff.1 hmem, fun x hx => hbd x (hpermH.mem_iff.2 hx)⟩

/-- C6 witness: the PDF over a one-row window reports that row's values
as average, maximum and minimum. -/
theorem c6_pdf_statistics_witness :
    getRecentData [rowW] 1767229200 48 ≠ [] ∧
    (∃ rep, generatePdfReport [rowW] 1767229200 48 = Except.ok rep ∧
      rep.stats.temp_avg = some ((colTemps (getRecentData [rowW] 1767229200 48)).sum /
        ((colTemps (getRecentData [rowW] 1767229200 48)).length : ℚ))) := by
  obtain ⟨rep, hok, -, -, havg, -⟩ :=
    c6_pdf_statistics [rowW] 1767229200 48 (by decide) (by decide)
  exact ⟨by decide, rep, hok, havg⟩
